import Mathlib

/-!
# DiligentCore archiver: `SerializationDeviceImpl.hpp`

A shallow embedding of `Graphics/Archiver/include/SerializationDeviceImpl.hpp`.

* A C++ object is a structure holding its data members.
* A `const` member function is a function of the object; a non-`const` member function
  returns the object after the call together with its result.
* An interface pointer (`IBuffer*`, `IDXCompiler*`, ...) is an `Option`: `none` is `nullptr`.
  An output parameter `T** ppObj` is the content of the slot before the call, and the
  function returns the content of the slot after the call.
* `Uint32` values are natural numbers, and every shift is reduced modulo `2 ^ 32`.
* Types that are only declared in headers outside this file (`RenderDeviceInfo`, the
  `*Desc` and `*CreateInfo` structures, `TextureFormatInfo`, ...) are type parameters.
-/

namespace Diligent

/-! ## Plain types -/

/-- Enumeration `TEXTURE_FORMAT`, as its underlying integer. -/
abbrev TEXTURE_FORMAT := Nat

/-- Enumeration `RESOURCE_DIMENSION`, as its underlying integer. -/
abbrev RESOURCE_DIMENSION := Nat

/-- Structure `Version` with its two `Uint32` members, initialised as `Version{Major, Minor}`. -/
structure Version where
  Major : Nat
  Minor : Nat
deriving DecidableEq, Repr

/-! ## `DummyRenderDevice` -/

/-- Class `DummyRenderDevice`: its two `const` data members. -/
structure DummyRenderDevice (RenderDeviceInfo GraphicsAdapterInfo : Type) where
  m_DeviceInfo : RenderDeviceInfo
  m_AdapterInfo : GraphicsAdapterInfo

namespace DummyRenderDevice

variable {RenderDeviceInfo GraphicsAdapterInfo : Type}
variable {Desc Data Obj : Type}

/-- Member `CreateGraphicsPipelineState(PSOCreateInfo, ppPipelineState)`: the body is `{}`. -/
def CreateGraphicsPipelineState (self : DummyRenderDevice RenderDeviceInfo GraphicsAdapterInfo)
    (_PSOCreateInfo : Desc) (ppPipelineState : Option Obj) :
    DummyRenderDevice RenderDeviceInfo GraphicsAdapterInfo × Option Obj :=
  (self, ppPipelineState)

/-- Member `CreateComputePipelineState(PSOCreateInfo, ppPipelineState)`: the body is `{}`. -/
def CreateComputePipelineState (self : DummyRenderDevice RenderDeviceInfo GraphicsAdapterInfo)
    (_PSOCreateInfo : Desc) (ppPipelineState : Option Obj) :
    DummyRenderDevice RenderDeviceInfo GraphicsAdapterInfo × Option Obj :=
  (self, ppPipelineState)

/-- Member `CreateRayTracingPipelineState(PSOCreateInfo, ppPipelineState)`: the body is `{}`. -/
def CreateRayTracingPipelineState (self : DummyRenderDevice RenderDeviceInfo GraphicsAdapterInfo)
    (_PSOCreateInfo : Desc) (ppPipelineState : Option Obj) :
    DummyRenderDevice RenderDeviceInfo GraphicsAdapterInfo × Option Obj :=
  (self, ppPipelineState)

/-- Member `CreateTilePipelineState(PSOCreateInfo, ppPipelineState)`: the body is `{}`. -/
def CreateTilePipelineState (self : DummyRenderDevice RenderDeviceInfo GraphicsAdapterInfo)
    (_PSOCreateInfo : Desc) (ppPipelineState : Option Obj) :
    DummyRenderDevice RenderDeviceInfo GraphicsAdapterInfo × Option Obj :=
  (self, ppPipelineState)

/-- Member `CreateBuffer(BuffDesc, pBuffData, ppBuffer)`: the body is `{}`. -/
def CreateBuffer (self : DummyRenderDevice RenderDeviceInfo GraphicsAdapterInfo)
    (_BuffDesc : Desc) (_pBuffData : Option Data) (ppBuffer : Option Obj) :
    DummyRenderDevice RenderDeviceInfo GraphicsAdapterInfo × Option Obj :=
  (self, ppBuffer)

/-- Member `CreateShader(ShaderCreateInfo, ppShader)`: the body is `{}`. -/
def CreateShader (self : DummyRenderDevice RenderDeviceInfo GraphicsAdapterInfo)
    (_ShaderCreateInfo : Desc) (ppShader : Option Obj) :
    DummyRenderDevice RenderDeviceInfo GraphicsAdapterInfo × Option Obj :=
  (self, ppShader)

/-- Member `CreateTexture(TexDesc, pData, ppTexture)`: the body is `{}`. -/
def CreateTexture (self : DummyRenderDevice RenderDeviceInfo GraphicsAdapterInfo)
    (_TexDesc : Desc) (_pData : Option Data) (ppTexture : Option Obj) :
    DummyRenderDevice RenderDeviceInfo GraphicsAdapterInfo × Option Obj :=
  (self, ppTexture)

/-- Member `CreateSampler(SamplerDesc, ppSampler)`: the body is `{}`. -/
def CreateSampler (self : DummyRenderDevice RenderDeviceInfo GraphicsAdapterInfo)
    (_SamplerDesc : Desc) (ppSampler : Option Obj) :
    DummyRenderDevice RenderDeviceInfo GraphicsAdapterInfo × Option Obj :=
  (self, ppSampler)

/-- Member `CreateFence(Desc, ppFence)`: the body is `{}`. -/
def CreateFence (self : DummyRenderDevice RenderDeviceInfo GraphicsAdapterInfo)
    (_Desc : Desc) (ppFence : Option Obj) :
    DummyRenderDevice RenderDeviceInfo GraphicsAdapterInfo × Option Obj :=
  (self, ppFence)

/-- Member `CreateQuery(Desc, ppQuery)`: the body is `{}`. -/
def CreateQuery (self : DummyRenderDevice RenderDeviceInfo GraphicsAdapterInfo)
    (_Desc : Desc) (ppQuery : Option Obj) :
    DummyRenderDevice RenderDeviceInfo GraphicsAdapterInfo × Option Obj :=
  (self, ppQuery)

/-- Member `CreateRenderPass(Desc, ppRenderPass)`: the body is `{}`. -/
def CreateRenderPass (self : DummyRenderDevice RenderDeviceInfo GraphicsAdapterInfo)
    (_Desc : Desc) (ppRenderPass : Option Obj) :
    DummyRenderDevice RenderDeviceInfo GraphicsAdapterInfo × Option Obj :=
  (self, ppRenderPass)

/-- Member `CreateFramebuffer(Desc, ppFramebuffer)`: the body is `{}`. -/
def CreateFramebuffer (self : DummyRenderDevice RenderDeviceInfo GraphicsAdapterInfo)
    (_Desc : Desc) (ppFramebuffer : Option Obj) :
    DummyRenderDevice RenderDeviceInfo GraphicsAdapterInfo × Option Obj :=
  (self, ppFramebuffer)

/-- Member `CreateBLAS(Desc, ppBLAS)`: the body is `{}`. -/
def CreateBLAS (self : DummyRenderDevice RenderDeviceInfo GraphicsAdapterInfo)
    (_Desc : Desc) (ppBLAS : Option Obj) :
    DummyRenderDevice RenderDeviceInfo GraphicsAdapterInfo × Option Obj :=
  (self, ppBLAS)

/-- Member `CreateTLAS(Desc, ppTLAS)`: the body is `{}`. -/
def CreateTLAS (self : DummyRenderDevice RenderDeviceInfo GraphicsAdapterInfo)
    (_Desc : Desc) (ppTLAS : Option Obj) :
    DummyRenderDevice RenderDeviceInfo GraphicsAdapterInfo × Option Obj :=
  (self, ppTLAS)

/-- Member `CreateSBT(Desc, ppSBT)`: the body is `{}`. -/
def CreateSBT (self : DummyRenderDevice RenderDeviceInfo GraphicsAdapterInfo)
    (_Desc : Desc) (ppSBT : Option Obj) :
    DummyRenderDevice RenderDeviceInfo GraphicsAdapterInfo × Option Obj :=
  (self, ppSBT)

/-- Member `CreatePipelineResourceSignature(Desc, ppSignature)`: the body is `{}`. -/
def CreatePipelineResourceSignature (self : DummyRenderDevice RenderDeviceInfo GraphicsAdapterInfo)
    (_Desc : Desc) (ppSignature : Option Obj) :
    DummyRenderDevice RenderDeviceInfo GraphicsAdapterInfo × Option Obj :=
  (self, ppSignature)

/-- Member `CreateDeviceMemory(CreateInfo, ppMemory)`: the body is `{}`. -/
def CreateDeviceMemory (self : DummyRenderDevice RenderDeviceInfo GraphicsAdapterInfo)
    (_CreateInfo : Desc) (ppMemory : Option Obj) :
    DummyRenderDevice RenderDeviceInfo GraphicsAdapterInfo × Option Obj :=
  (self, ppMemory)

/-- Member `CreatePipelineStateCache(CreateInfo, ppPSOCache)`: the body is `{}`. -/
def CreatePipelineStateCache (self : DummyRenderDevice RenderDeviceInfo GraphicsAdapterInfo)
    (_CreateInfo : Desc) (ppPSOCache : Option Obj) :
    DummyRenderDevice RenderDeviceInfo GraphicsAdapterInfo × Option Obj :=
  (self, ppPSOCache)

/-- Member `CreateResourceMapping(MappingDesc, ppMapping)`: the body is `{}`. -/
def CreateResourceMapping (self : DummyRenderDevice RenderDeviceInfo GraphicsAdapterInfo)
    (_MappingDesc : Desc) (ppMapping : Option Obj) :
    DummyRenderDevice RenderDeviceInfo GraphicsAdapterInfo × Option Obj :=
  (self, ppMapping)

/-- Member `IdleGPU()`: the body is `{}`. -/
def IdleGPU (self : DummyRenderDevice RenderDeviceInfo GraphicsAdapterInfo) :
    DummyRenderDevice RenderDeviceInfo GraphicsAdapterInfo :=
  self

/-- Member `ReleaseStaleResources(ForceRelease)`: the body is `{}`. -/
def ReleaseStaleResources (self : DummyRenderDevice RenderDeviceInfo GraphicsAdapterInfo)
    (_ForceRelease : Bool) : DummyRenderDevice RenderDeviceInfo GraphicsAdapterInfo :=
  self

/-- Member `GetSparseTextureFormatInfo(TexFormat, Dimension, SampleCount) const`:
`return SparseTextureFormatInfo{};`, the value-initialised structure. -/
def GetSparseTextureFormatInfo {SparseTextureFormatInfo : Type} [Inhabited SparseTextureFormatInfo]
    (_self : DummyRenderDevice RenderDeviceInfo GraphicsAdapterInfo)
    (_TexFormat : TEXTURE_FORMAT) (_Dimension : RESOURCE_DIMENSION) (_SampleCount : Nat) :
    SparseTextureFormatInfo :=
  default

/-- Member `GetDeviceInfo() const`: `return m_DeviceInfo;`. -/
def GetDeviceInfo (self : DummyRenderDevice RenderDeviceInfo GraphicsAdapterInfo) :
    RenderDeviceInfo :=
  self.m_DeviceInfo

/-- Member `GetAdapterInfo() const`: `return m_AdapterInfo;`. -/
def GetAdapterInfo (self : DummyRenderDevice RenderDeviceInfo GraphicsAdapterInfo) :
    GraphicsAdapterInfo :=
  self.m_AdapterInfo

/-- Member `GetTextureFormatInfo(TexFormat)`: returns the function-local
`static const TextureFormatInfo FmtInfo = {};`. -/
def GetTextureFormatInfo {TextureFormatInfo : Type} [Inhabited TextureFormatInfo]
    (self : DummyRenderDevice RenderDeviceInfo GraphicsAdapterInfo) (_TexFormat : TEXTURE_FORMAT) :
    DummyRenderDevice RenderDeviceInfo GraphicsAdapterInfo × TextureFormatInfo :=
  (self, default)

/-- Member `GetTextureFormatInfoExt(TexFormat)`: returns the function-local
`static const TextureFormatInfoExt FmtInfo = {};`. -/
def GetTextureFormatInfoExt {TextureFormatInfoExt : Type} [Inhabited TextureFormatInfoExt]
    (self : DummyRenderDevice RenderDeviceInfo GraphicsAdapterInfo) (_TexFormat : TEXTURE_FORMAT) :
    DummyRenderDevice RenderDeviceInfo GraphicsAdapterInfo × TextureFormatInfoExt :=
  (self, default)

/-- Member `GetEngineFactory() const`: `return nullptr;`. -/
def GetEngineFactory {IEngineFactory : Type}
    (_self : DummyRenderDevice RenderDeviceInfo GraphicsAdapterInfo) : Option IEngineFactory :=
  none

end DummyRenderDevice

/-- The nineteen resource-creation members of `DummyRenderDevice`. -/
inductive CreateCall where
  | GraphicsPipelineState
  | ComputePipelineState
  | RayTracingPipelineState
  | TilePipelineState
  | Buffer
  | Shader
  | Texture
  | Sampler
  | Fence
  | Query
  | RenderPass
  | Framebuffer
  | BLAS
  | TLAS
  | SBT
  | PipelineResourceSignature
  | DeviceMemory
  | PipelineStateCache
  | ResourceMapping
deriving DecidableEq, Repr

namespace DummyRenderDevice

variable {RenderDeviceInfo GraphicsAdapterInfo : Type}
variable {Desc Data Obj : Type}

/-- One resource-creation call: the member named by `c`, applied to a description, to the
optional initial data (read by `CreateBuffer` and `CreateTexture` only) and to the output slot. -/
def create (c : CreateCall) (self : DummyRenderDevice RenderDeviceInfo GraphicsAdapterInfo)
    (desc : Desc) (data : Option Data) (slot : Option Obj) :
    DummyRenderDevice RenderDeviceInfo GraphicsAdapterInfo × Option Obj :=
  match c with
  | .GraphicsPipelineState => self.CreateGraphicsPipelineState desc slot
  | .ComputePipelineState => self.CreateComputePipelineState desc slot
  | .RayTracingPipelineState => self.CreateRayTracingPipelineState desc slot
  | .TilePipelineState => self.CreateTilePipelineState desc slot
  | .Buffer => self.CreateBuffer desc data slot
  | .Shader => self.CreateShader desc slot
  | .Texture => self.CreateTexture desc data slot
  | .Sampler => self.CreateSampler desc slot
  | .Fence => self.CreateFence desc slot
  | .Query => self.CreateQuery desc slot
  | .RenderPass => self.CreateRenderPass desc slot
  | .Framebuffer => self.CreateFramebuffer desc slot
  | .BLAS => self.CreateBLAS desc slot
  | .TLAS => self.CreateTLAS desc slot
  | .SBT => self.CreateSBT desc slot
  | .PipelineResourceSignature => self.CreatePipelineResourceSignature desc slot
  | .DeviceMemory => self.CreateDeviceMemory desc slot
  | .PipelineStateCache => self.CreatePipelineStateCache desc slot
  | .ResourceMapping => self.CreateResourceMapping desc slot

end DummyRenderDevice

/-- One call of a member of `DummyRenderDevice`, with its arguments. -/
inductive DeviceOp (Desc Data Obj : Type) where
  | Create (c : CreateCall) (desc : Desc) (data : Option Data) (slot : Option Obj)
  | IdleGPU
  | ReleaseStaleResources (ForceRelease : Bool)
  | GetSparseTextureFormatInfo (TexFormat : TEXTURE_FORMAT) (Dimension : RESOURCE_DIMENSION)
      (SampleCount : Nat)
  | GetDeviceInfo
  | GetAdapterInfo
  | GetTextureFormatInfo (TexFormat : TEXTURE_FORMAT)
  | GetTextureFormatInfoExt (TexFormat : TEXTURE_FORMAT)
  | GetEngineFactory

namespace DummyRenderDevice

variable {RenderDeviceInfo GraphicsAdapterInfo : Type}
variable {Desc Data Obj : Type}

/-- The device after one call. A `const` member cannot assign to a data member, so the
device after it is the device before it; the other members return the device they leave. -/
def step (TextureFormatInfo TextureFormatInfoExt : Type)
    [Inhabited TextureFormatInfo] [Inhabited TextureFormatInfoExt]
    (self : DummyRenderDevice RenderDeviceInfo GraphicsAdapterInfo) :
    DeviceOp Desc Data Obj → DummyRenderDevice RenderDeviceInfo GraphicsAdapterInfo
  | .Create c desc data slot => (self.create c desc data slot).1
  | .IdleGPU => self.IdleGPU
  | .ReleaseStaleResources ForceRelease => self.ReleaseStaleResources ForceRelease
  | .GetSparseTextureFormatInfo _ _ _ => self
  | .GetDeviceInfo => self
  | .GetAdapterInfo => self
  | .GetTextureFormatInfo TexFormat =>
      (self.GetTextureFormatInfo TexFormat : _ × TextureFormatInfo).1
  | .GetTextureFormatInfoExt TexFormat =>
      (self.GetTextureFormatInfoExt TexFormat : _ × TextureFormatInfoExt).1
  | .GetEngineFactory => self

/-- The device after a sequence of calls, made from left to right. -/
def run (TextureFormatInfo TextureFormatInfoExt : Type)
    [Inhabited TextureFormatInfo] [Inhabited TextureFormatInfoExt]
    (self : DummyRenderDevice RenderDeviceInfo GraphicsAdapterInfo)
    (ops : List (DeviceOp Desc Data Obj)) : DummyRenderDevice RenderDeviceInfo GraphicsAdapterInfo :=
  ops.foldl (step TextureFormatInfo TextureFormatInfoExt) self

end DummyRenderDevice

/-! ## `SerializationDeviceImpl` -/

/-- Class `SerializationDeviceImpl`: its data members, each with the default member
initialiser of the header (`std::unique_ptr` starts as `nullptr`, `String` and `std::vector`
start empty). The element type of `m_ResourceBindings` is declared outside this header. -/
structure SerializationDeviceImpl
    (RenderDeviceInfo GraphicsAdapterInfo IDXCompiler PipelineResourceBinding : Type) where
  m_Device : DummyRenderDevice RenderDeviceInfo GraphicsAdapterInfo
  m_D3D11FeatureLevel : Version := ⟨11, 0⟩
  m_pDxCompiler : Option IDXCompiler := none
  m_D3D12ShaderVersion : Version := ⟨6, 5⟩
  m_pVkDxCompiler : Option IDXCompiler := none
  m_VkVersion : Version := ⟨1, 0⟩
  m_VkSupportedSpirv14 : Bool := false
  m_MtlTempShaderFolder : String := ""
  m_MtlCompileOptions : String := ""
  m_MtlLinkOptions : String := ""
  m_MslPreprocessorCmd : String := ""
  m_ResourceBindings : List PipelineResourceBinding := []

/-- The `const` accessors of `SerializationDeviceImpl` (lines 210-261 of the header), with
`D3D11_SUPPORTED`, `D3D12_SUPPORTED`, `VULKAN_SUPPORTED` and `METAL_SUPPORTED` all defined. -/
inductive Accessor where
  | GetD3D11FeatureLevel
  | GetDxCompilerForDirect3D12
  | GetD3D12ShaderVersion
  | GetDxCompilerForVulkan
  | GetVkVersion
  | HasSpirv14
  | GetMtlTempShaderFolder
  | GetMslPreprocessorCmd
  | GetMtlCompileOptions
  | GetMtlLinkOptions
  | MtlMaxBufferFunctionArgumets
deriving DecidableEq, Repr

/-- A value returned by one of the accessors, tagged with its C++ type. -/
inductive AccessorResult (IDXCompiler : Type) where
  | uint32 (v : Nat)
  | compiler (p : Option IDXCompiler)
  | version (v : Version)
  | bool (b : Bool)
  | string (s : String)

namespace SerializationDeviceImpl

variable {RenderDeviceInfo GraphicsAdapterInfo IDXCompiler PipelineResourceBinding : Type}

/-- Member `GetD3D11FeatureLevel() const`:
`return (m_D3D11FeatureLevel.Major << 12) | (m_D3D11FeatureLevel.Minor << 8);` on `Uint32`. -/
def GetD3D11FeatureLevel
    (self : SerializationDeviceImpl RenderDeviceInfo GraphicsAdapterInfo IDXCompiler
      PipelineResourceBinding) : Nat :=
  ((self.m_D3D11FeatureLevel.Major <<< 12) % 2 ^ 32) |||
    ((self.m_D3D11FeatureLevel.Minor <<< 8) % 2 ^ 32)

/-- Member `GetDxCompilerForDirect3D12() const`: `return m_pDxCompiler.get();`. -/
def GetDxCompilerForDirect3D12
    (self : SerializationDeviceImpl RenderDeviceInfo GraphicsAdapterInfo IDXCompiler
      PipelineResourceBinding) : Option IDXCompiler :=
  self.m_pDxCompiler

/-- Member `GetD3D12ShaderVersion() const`: `return m_D3D12ShaderVersion;`. -/
def GetD3D12ShaderVersion
    (self : SerializationDeviceImpl RenderDeviceInfo GraphicsAdapterInfo IDXCompiler
      PipelineResourceBinding) : Version :=
  self.m_D3D12ShaderVersion

/-- Member `GetDxCompilerForVulkan() const`: `return m_pVkDxCompiler.get();`. -/
def GetDxCompilerForVulkan
    (self : SerializationDeviceImpl RenderDeviceInfo GraphicsAdapterInfo IDXCompiler
      PipelineResourceBinding) : Option IDXCompiler :=
  self.m_pVkDxCompiler

/-- Member `GetVkVersion() const`:
`return (m_VkVersion.Major << 22) | (m_VkVersion.Minor << 12);` on `Uint32`. -/
def GetVkVersion
    (self : SerializationDeviceImpl RenderDeviceInfo GraphicsAdapterInfo IDXCompiler
      PipelineResourceBinding) : Nat :=
  ((self.m_VkVersion.Major <<< 22) % 2 ^ 32) ||| ((self.m_VkVersion.Minor <<< 12) % 2 ^ 32)

/-- Member `HasSpirv14() const`: `return m_VkSupportedSpirv14;`. -/
def HasSpirv14
    (self : SerializationDeviceImpl RenderDeviceInfo GraphicsAdapterInfo IDXCompiler
      PipelineResourceBinding) : Bool :=
  self.m_VkSupportedSpirv14

/-- Member `GetMtlTempShaderFolder() const`: `return m_MtlTempShaderFolder;`. -/
def GetMtlTempShaderFolder
    (self : SerializationDeviceImpl RenderDeviceInfo GraphicsAdapterInfo IDXCompiler
      PipelineResourceBinding) : String :=
  self.m_MtlTempShaderFolder

/-- Member `GetMslPreprocessorCmd() const`: `return m_MslPreprocessorCmd;`. -/
def GetMslPreprocessorCmd
    (self : SerializationDeviceImpl RenderDeviceInfo GraphicsAdapterInfo IDXCompiler
      PipelineResourceBinding) : String :=
  self.m_MslPreprocessorCmd

/-- Member `GetMtlCompileOptions() const`: `return m_MtlCompileOptions;`. -/
def GetMtlCompileOptions
    (self : SerializationDeviceImpl RenderDeviceInfo GraphicsAdapterInfo IDXCompiler
      PipelineResourceBinding) : String :=
  self.m_MtlCompileOptions

/-- Member `GetMtlLinkOptions() const`: `return m_MtlLinkOptions;`. -/
def GetMtlLinkOptions
    (self : SerializationDeviceImpl RenderDeviceInfo GraphicsAdapterInfo IDXCompiler
      PipelineResourceBinding) : String :=
  self.m_MtlLinkOptions

/-- Member `MtlMaxBufferFunctionArgumets() const`: `return 31;`. -/
def MtlMaxBufferFunctionArgumets
    (_self : SerializationDeviceImpl RenderDeviceInfo GraphicsAdapterInfo IDXCompiler
      PipelineResourceBinding) : Nat :=
  31

/-- Member `GetDevice()`: `return &m_Device;`. -/
def GetDevice
    (self : SerializationDeviceImpl RenderDeviceInfo GraphicsAdapterInfo IDXCompiler
      PipelineResourceBinding) : DummyRenderDevice RenderDeviceInfo GraphicsAdapterInfo :=
  self.m_Device

/-- Member `GetDeviceInfo() const`: `return m_Device.GetDeviceInfo();`. -/
def GetDeviceInfo
    (self : SerializationDeviceImpl RenderDeviceInfo GraphicsAdapterInfo IDXCompiler
      PipelineResourceBinding) : RenderDeviceInfo :=
  self.m_Device.GetDeviceInfo

/-- Member `GetAdapterInfo() const`: `return m_Device.GetAdapterInfo();`. -/
def GetAdapterInfo
    (self : SerializationDeviceImpl RenderDeviceInfo GraphicsAdapterInfo IDXCompiler
      PipelineResourceBinding) : GraphicsAdapterInfo :=
  self.m_Device.GetAdapterInfo

/-- One accessor call: the device after the call and the value returned. All eleven members
are `const` and the class has no `mutable` member, so the device after the call is the device
before it. -/
def call
    (self : SerializationDeviceImpl RenderDeviceInfo GraphicsAdapterInfo IDXCompiler
      PipelineResourceBinding) (a : Accessor) :
    SerializationDeviceImpl RenderDeviceInfo GraphicsAdapterInfo IDXCompiler
      PipelineResourceBinding × AccessorResult IDXCompiler :=
  match a with
  | .GetD3D11FeatureLevel => (self, .uint32 self.GetD3D11FeatureLevel)
  | .GetDxCompilerForDirect3D12 => (self, .compiler self.GetDxCompilerForDirect3D12)
  | .GetD3D12ShaderVersion => (self, .version self.GetD3D12ShaderVersion)
  | .GetDxCompilerForVulkan => (self, .compiler self.GetDxCompilerForVulkan)
  | .GetVkVersion => (self, .uint32 self.GetVkVersion)
  | .HasSpirv14 => (self, .bool self.HasSpirv14)
  | .GetMtlTempShaderFolder => (self, .string self.GetMtlTempShaderFolder)
  | .GetMslPreprocessorCmd => (self, .string self.GetMslPreprocessorCmd)
  | .GetMtlCompileOptions => (self, .string self.GetMtlCompileOptions)
  | .GetMtlLinkOptions => (self, .string self.GetMtlLinkOptions)
  | .MtlMaxBufferFunctionArgumets => (self, .uint32 self.MtlMaxBufferFunctionArgumets)

/-- The device after a sequence of accessor calls, made from left to right. -/
def callAll
    (self : SerializationDeviceImpl RenderDeviceInfo GraphicsAdapterInfo IDXCompiler
      PipelineResourceBinding) (calls : List Accessor) :
    SerializationDeviceImpl RenderDeviceInfo GraphicsAdapterInfo IDXCompiler
      PipelineResourceBinding :=
  calls.foldl (fun d a => (d.call a).1) self

/-- The two devices hold the same value in the data member that backs the accessor `a`
(`MtlMaxBufferFunctionArgumets` reads no data member). -/
def sameBackingField (a : Accessor)
    (d₁ d₂ : SerializationDeviceImpl RenderDeviceInfo GraphicsAdapterInfo IDXCompiler
      PipelineResourceBinding) : Prop :=
  match a with
  | .GetD3D11FeatureLevel => d₁.m_D3D11FeatureLevel = d₂.m_D3D11FeatureLevel
  | .GetDxCompilerForDirect3D12 => d₁.m_pDxCompiler = d₂.m_pDxCompiler
  | .GetD3D12ShaderVersion => d₁.m_D3D12ShaderVersion = d₂.m_D3D12ShaderVersion
  | .GetDxCompilerForVulkan => d₁.m_pVkDxCompiler = d₂.m_pVkDxCompiler
  | .GetVkVersion => d₁.m_VkVersion = d₂.m_VkVersion
  | .HasSpirv14 => d₁.m_VkSupportedSpirv14 = d₂.m_VkSupportedSpirv14
  | .GetMtlTempShaderFolder => d₁.m_MtlTempShaderFolder = d₂.m_MtlTempShaderFolder
  | .GetMslPreprocessorCmd => d₁.m_MslPreprocessorCmd = d₂.m_MslPreprocessorCmd
  | .GetMtlCompileOptions => d₁.m_MtlCompileOptions = d₂.m_MtlCompileOptions
  | .GetMtlLinkOptions => d₁.m_MtlLinkOptions = d₂.m_MtlLinkOptions
  | .MtlMaxBufferFunctionArgumets => True

end SerializationDeviceImpl

/-! ## Pipeline resource signatures and the binding table

`SerializationDeviceImpl.hpp` only declares `CreatePipelineResourceSignature`,
`GetPipelineResourceBindings`, `GetMetalPipelineResourceBindings` and `GetValidDeviceFlags`;
their bodies are in `SerializationDeviceImpl.cpp`. The definitions of this section follow the
specification (sections 3, 4.3, 4.4 and 7) instead, and say so.
-/

/-- Modelled from the spec: the error kinds of section 7, raised by the bodies that are
missing from the header. `CapacityExceeded` carries the name of the offending resource. -/
inductive Error where
  | ConfigurationError
  | CompilationFailure
  | CapacityExceeded (Name : String)
deriving DecidableEq, Repr

/-- Modelled from the spec: the closed set of backend kinds of section 3 (the type
`RENDER_DEVICE_TYPE_FLAGS` is declared outside the header), one per backend family. A flag
set is a list of backends. -/
inductive Backend where
  | D3D11
  | D3D12
  | Vulkan
  | Metal
deriving DecidableEq, Repr

/-- Modelled from the spec: the resource categories of section 4.3, "the separate counters
for buffers/textures/samplers" (the resource-type enumeration is declared outside the header). -/
inductive ResourceType where
  | Buffer
  | Texture
  | Sampler
deriving DecidableEq, Repr

/-- Modelled from the spec: one entry of a signature description, "(name, type, shader-stage
mask, array size)" (section 3); the structure is declared outside the header. -/
structure PipelineResourceDesc where
  Name : String
  ResourceType : ResourceType
  ShaderStages : Nat
  ArraySize : Nat
deriving DecidableEq, Repr

/-- Modelled from the spec: a signature description, its resources in declaration order
(the structure is declared outside the header). -/
structure PipelineResourceSignatureDesc where
  Resources : List PipelineResourceDesc
deriving DecidableEq, Repr

/-- Modelled from the spec: the serializable signature of section 3, the description together
with the backends it was created for (the class `SerializableResourceSignatureImpl` is only
forward-declared in the header). -/
structure SerializableResourceSignature where
  Desc : PipelineResourceSignatureDesc
  DeviceFlags : List Backend
deriving DecidableEq, Repr

/-- Modelled from the spec: one row of the binding table, "{name, resource type, shader-stage
mask, backend-specific slot}" (section 3); the structure is declared outside the header. -/
structure PipelineResourceBinding where
  Name : String
  ResourceType : ResourceType
  ShaderStages : Nat
  Register : Nat
deriving DecidableEq, Repr

/-- Modelled from the spec: the input of `GetPipelineResourceBindings`, "signatures in use,
their active shader stages, and the target backend" (section 4.4); the stages are those of the
signatures' resources. The structure is declared outside the header. -/
structure PipelineResourceBindingAttribs where
  Signatures : List SerializableResourceSignature
  DeviceType : Backend
deriving DecidableEq, Repr

/-- Modelled from the spec: the resources of all input signatures, "signatures are processed
in the order given; within a signature, resources are processed in declaration order"
(section 4.4). -/
def PipelineResourceBindingAttribs.resources (Attribs : PipelineResourceBindingAttribs) :
    List PipelineResourceDesc :=
  Attribs.Signatures.flatMap fun sig => sig.Desc.Resources

/-- Modelled from the spec: the stage mask of a row, "OR'd across all signatures contributing
to the same logical name" (section 4.4). -/
def stageMaskOf (all : List PipelineResourceDesc) (Name : String) : Nat :=
  (all.filter fun r => r.Name == Name).foldl (fun m r => m ||| r.ShaderStages) 0

/-- Modelled from the spec: the running total of buffer-type rows of one stage combination
(section 4.4, Metal-specific rule). -/
def bufferCount (table : List PipelineResourceBinding) (stages : Nat) : Nat :=
  (table.filter fun b => b.ResourceType == ResourceType.Buffer && b.ShaderStages == stages).length

/-- Modelled from the spec: the next free index of a resource category, "sequential index per
resource category" (section 4.3). -/
def categoryCount (table : List PipelineResourceBinding) (ty : ResourceType) : Nat :=
  (table.filter fun b => b.ResourceType == ty).length

/-- Modelled from the spec: the Metal rule of sections 4.3 and 4.4, over the rows made so far
and the resources still to process. Each resource gets the next index of its category; a
buffer-type resource is first counted against the running total of its stage combination, and
"when the configured buffer-argument maximum would be exceeded, the call fails with a capacity
error identifying the offending resource name". The body is missing from the header. -/
def metalBindings (MaxBufferArgs : Nat) (all : List PipelineResourceDesc) :
    List PipelineResourceBinding → List PipelineResourceDesc →
      Except Error (List PipelineResourceBinding)
  | table, [] => .ok table
  | table, r :: rest =>
    if r.ResourceType = ResourceType.Buffer ∧
        MaxBufferArgs < bufferCount table (stageMaskOf all r.Name) + 1 then
      .error (.CapacityExceeded r.Name)
    else
      metalBindings MaxBufferArgs all
        (table ++ [⟨r.Name, r.ResourceType, stageMaskOf all r.Name,
          categoryCount table r.ResourceType⟩]) rest

/-- Modelled from the spec: the slot rules of the other backends (section 4.3), "D3D:
sequential register per resource type per space; Vulkan: sequential binding per descriptor
set", with one space and one descriptor set; the spec names no ceiling for them. The body is
missing from the header. -/
def sequentialBindings (backend : Backend) (all : List PipelineResourceDesc) :
    List PipelineResourceBinding → List PipelineResourceDesc → List PipelineResourceBinding
  | table, [] => table
  | table, r :: rest =>
    sequentialBindings backend all
      (table ++ [⟨r.Name, r.ResourceType, stageMaskOf all r.Name,
        if backend = Backend.Vulkan then table.length else categoryCount table r.ResourceType⟩])
      rest

/-- A device in the state the default member initialisers of the header give it. -/
def defaultDevice :
    SerializationDeviceImpl Unit Unit Nat PipelineResourceBinding :=
  { m_Device := ⟨(), ()⟩ }

/-- A device that differs from `defaultDevice` in most fields. -/
def configuredDevice :
    SerializationDeviceImpl Unit Unit Nat PipelineResourceBinding :=
  { m_Device := ⟨(), ()⟩
    m_D3D11FeatureLevel := ⟨11, 1⟩
    m_pDxCompiler := some 5
    m_D3D12ShaderVersion := ⟨6, 0⟩
    m_pVkDxCompiler := some 6
    m_VkSupportedSpirv14 := true
    m_MtlLinkOptions := "-O2"
    m_ResourceBindings := [⟨"stale", ResourceType.Buffer, 1, 0⟩] }

/-- Sample resource name number `i`: `i + 1` letters `b`. -/
def sampleName (i : Nat) : String :=
  String.mk (List.replicate (i + 1) 'b')

/-- A sample signature description: a texture, a sampler and two buffer-type resources of
stage combination `1`, then `n` buffer-type resources of stage combination `3`, all under
distinct names. -/
def sampleSignature (n : Nat) : PipelineResourceSignatureDesc :=
  ⟨[⟨"tex", ResourceType.Texture, 2, 1⟩, ⟨"smp", ResourceType.Sampler, 2, 1⟩,
      ⟨"vsA", ResourceType.Buffer, 1, 1⟩, ⟨"vsB", ResourceType.Buffer, 1, 4⟩] ++
    (List.range n).map fun i => ⟨sampleName i, ResourceType.Buffer, 3, 1⟩⟩

/-- The buffer-type resources of a list that have the stage combination `stages`, in order. -/
def buffersIn (resources : List PipelineResourceDesc) (stages : Nat) :
    List PipelineResourceDesc :=
  resources.filter fun r => r.ResourceType == ResourceType.Buffer && r.ShaderStages == stages

namespace SerializationDeviceImpl

variable {RenderDeviceInfo GraphicsAdapterInfo IDXCompiler : Type}

/-- Modelled from the spec: the static member `GetMetalPipelineResourceBindings(Attribs,
ResourceBindings, MaxBufferArgs)`, whose body is missing from the header. `ResourceBindings`
is the content of the output vector before the call; the result is "a pure, deterministic
computation" of the attributes (section 4.4), so the rows start from an empty table, and a
failure returns no table ("no partial artifact", section 7). -/
def GetMetalPipelineResourceBindings (Attribs : PipelineResourceBindingAttribs)
    (_ResourceBindings : List PipelineResourceBinding) (MaxBufferArgs : Nat) :
    Except Error (List PipelineResourceBinding) :=
  metalBindings MaxBufferArgs Attribs.resources [] Attribs.resources

/-- Modelled from the spec: the member `GetPipelineResourceBindings(Attribs, NumBindings,
pBindings)`, whose body is missing from the header. The table of the target backend is stored
in `m_ResourceBindings`; `NumBindings` is its length and `pBindings` its rows. For Metal the
table is that of `GetMetalPipelineResourceBindings` with
`MaxBufferArgs = MtlMaxBufferFunctionArgumets()`. -/
def GetPipelineResourceBindings
    (self : SerializationDeviceImpl RenderDeviceInfo GraphicsAdapterInfo IDXCompiler
      PipelineResourceBinding) (Attribs : PipelineResourceBindingAttribs) :
    Except Error (SerializationDeviceImpl RenderDeviceInfo GraphicsAdapterInfo IDXCompiler
      PipelineResourceBinding × Nat × List PipelineResourceBinding) :=
  let table : Except Error (List PipelineResourceBinding) :=
    if Attribs.DeviceType = Backend.Metal then
      GetMetalPipelineResourceBindings Attribs self.m_ResourceBindings
        self.MtlMaxBufferFunctionArgumets
    else
      .ok (sequentialBindings Attribs.DeviceType Attribs.resources [] Attribs.resources)
  match table with
  | .error e => .error e
  | .ok rows => .ok ({ self with m_ResourceBindings := rows }, rows.length, rows)

/-- Modelled from the spec: the member `CreatePipelineResourceSignature(Desc, DeviceFlags,
ppSignature)` of section 4.3, whose body is missing from the header. `ValidDeviceFlags` is
the result of the static member `GetValidDeviceFlags()`, the backends compiled into the build.
A request must be "scoped to a non-empty subset of backends the device was configured to
support" (section 3) and the names must be unique within the signature, else
`ConfigurationError`; when Metal is requested and its allocation would exceed the
buffer-argument ceiling "the whole creation fails atomically". On success the output slot
holds the new signature. -/
def CreatePipelineResourceSignature (ValidDeviceFlags : List Backend)
    (self : SerializationDeviceImpl RenderDeviceInfo GraphicsAdapterInfo IDXCompiler
      PipelineResourceBinding) (Desc : PipelineResourceSignatureDesc)
    (DeviceFlags : List Backend) : Except Error SerializableResourceSignature :=
  if DeviceFlags = [] ∨ ¬ DeviceFlags ⊆ ValidDeviceFlags then
    .error .ConfigurationError
  else if ¬ (Desc.Resources.map fun r => r.Name).Nodup then
    .error .ConfigurationError
  else if Backend.Metal ∈ DeviceFlags then
    match metalBindings self.MtlMaxBufferFunctionArgumets Desc.Resources [] Desc.Resources with
    | .error e => .error e
    | .ok _ => .ok ⟨Desc, DeviceFlags⟩
  else
    .ok ⟨Desc, DeviceFlags⟩

/-- Modelled from the spec: "creating a pipeline resource signature and computing its
bindings" for Metal, the two calls above one after the other on one signature. -/
def createAndGetMetalBindings (ValidDeviceFlags : List Backend)
    (self : SerializationDeviceImpl RenderDeviceInfo GraphicsAdapterInfo IDXCompiler
      PipelineResourceBinding) (Desc : PipelineResourceSignatureDesc) :
    Except Error (SerializationDeviceImpl RenderDeviceInfo GraphicsAdapterInfo IDXCompiler
      PipelineResourceBinding × Nat × List PipelineResourceBinding) :=
  match self.CreatePipelineResourceSignature ValidDeviceFlags Desc [Backend.Metal] with
  | .error e => .error e
  | .ok sig => self.GetPipelineResourceBindings ⟨[sig], Backend.Metal⟩

end SerializationDeviceImpl

/-! ## The test kernel `MSL::ThreadgroupMemory_CS`

The index arithmetic of the kernel `CSmain` in `InlineShaders/MetalTestsMSL.h`. A `uint` is
a natural number below `2 ^ 32`, and `+`, `-` and `*` wrap around modulo `2 ^ 32`; `%` by
zero has no result.
-/

namespace MSL

/-- Type `uint2` of the Metal shading language: two `uint` components. -/
structure uint2 where
  x : Nat
  y : Nat
deriving DecidableEq, Repr

/-- Operator `+` on `uint`. -/
def uadd (a b : Nat) : Nat :=
  (a + b) % 2 ^ 32

/-- Operator `-` on `uint`, for operands below `2 ^ 32`: `0 - 1` is `2 ^ 32 - 1`. -/
def usub (a b : Nat) : Nat :=
  (a + 2 ^ 32 - b) % 2 ^ 32

/-- Operator `*` on `uint`. -/
def umul (a b : Nat) : Nat :=
  (a * b) % 2 ^ 32

/-- Operator `%` on `uint`: no result when the divisor is zero. -/
def umod (a b : Nat) : Option Nat :=
  if b = 0 then none else some (a % b)

/-- The three neighbour offsets the kernel applies to a component of `localId`:
`+ 0`, `- 1` and `+ 1`. -/
inductive Offset where
  | zero
  | minus
  | plus
deriving DecidableEq, Repr

/-- The expression `(c + 0)`, `(c - 1)` or `(c + 1)` on `uint`. -/
def Offset.apply : Offset → Nat → Nat
  | .zero, c => uadd c 0
  | .minus, c => usub c 1
  | .plus, c => uadd c 1

namespace ThreadgroupMemory_CS

/-- Pass 1, line 60: `uint idx = localId.x + localId.y * localSize.x;`, the index written by
`groupPixels[idx] = col;`. -/
def pass1Index (localId localSize : uint2) : Nat :=
  uadd localId.x (umul localId.y localSize.x)

/-- Pass 2, lines 69-73: the index
`((localId.x o₁) % localSize.x) + ((localId.y o₂) % localSize.y) * localSize.x` read from
`groupPixels`, for the offsets `o₁` on `x` and `o₂` on `y`. -/
def pass2Index (ox oy : Offset) (localId localSize : uint2) : Option Nat :=
  match umod (ox.apply localId.x) localSize.x, umod (oy.apply localId.y) localSize.y with
  | some a, some b => some (uadd a (umul b localSize.x))
  | _, _ => none

/-- Pass 2, lines 69-73: the offsets of the five reads, in the order of the source:
`(+0, +0)`, `(-1, +1)`, `(-1, -1)`, `(+1, -1)`, `(+1, +1)`. -/
def pass2Reads : List (Offset × Offset) :=
  [(.zero, .zero), (.minus, .plus), (.minus, .minus), (.plus, .minus), (.plus, .plus)]

end ThreadgroupMemory_CS

end MSL

/-! ## Theorems: `DummyRenderDevice` -/

section DummyRenderDeviceTheorems

variable {RenderDeviceInfo GraphicsAdapterInfo : Type}
variable {Desc Data Obj : Type}

/-- Every resource-creation member returns the device and the output slot it was given. -/
theorem DummyRenderDevice.create_eq (c : CreateCall)
    (self : DummyRenderDevice RenderDeviceInfo GraphicsAdapterInfo)
    (desc : Desc) (data : Option Data) (slot : Option Obj) :
    self.create c desc data slot = (self, slot) := by
  cases c <;> rfl

/-- No member call changes the device. -/
theorem DummyRenderDevice.step_eq (TextureFormatInfo TextureFormatInfoExt : Type)
    [Inhabited TextureFormatInfo] [Inhabited TextureFormatInfoExt]
    (self : DummyRenderDevice RenderDeviceInfo GraphicsAdapterInfo)
    (op : DeviceOp Desc Data Obj) :
    self.step TextureFormatInfo TextureFormatInfoExt op = self := by
  cases op with
  | Create c desc data slot =>
      show (self.create c desc data slot).1 = self
      rw [DummyRenderDevice.create_eq]
  | _ => rfl

/-- No sequence of member calls changes the device. -/
theorem DummyRenderDevice.run_eq (TextureFormatInfo TextureFormatInfoExt : Type)
    [Inhabited TextureFormatInfo] [Inhabited TextureFormatInfoExt]
    (self : DummyRenderDevice RenderDeviceInfo GraphicsAdapterInfo)
    (ops : List (DeviceOp Desc Data Obj)) :
    self.run TextureFormatInfo TextureFormatInfoExt ops = self := by
  induction ops with
  | nil => rfl
  | cons op ops ih =>
      show List.foldl _ (self.step TextureFormatInfo TextureFormatInfoExt op) ops = self
      rw [DummyRenderDevice.step_eq]
      exact ih

/-- C1, as the header has it: every resource-creation call of `DummyRenderDevice`, for every
description, initial data and prior content of the output slot, returns (there is no error
path), leaves the device as it was and leaves the output slot exactly as it found it; so the
output is null after the call if and only if it was null before the call. -/
theorem DummyRenderDevice.create_leaves_slot (c : CreateCall)
    (self : DummyRenderDevice RenderDeviceInfo GraphicsAdapterInfo)
    (desc : Desc) (data : Option Data) (slot : Option Obj) :
    self.create c desc data slot = (self, slot) ∧
      ((self.create c desc data slot).2 = none ↔ slot = none) := by
  rw [DummyRenderDevice.create_eq]
  exact ⟨rfl, Iff.rfl⟩

/-- C1 fails as stated: `CreateBuffer` called with an output slot that holds the object `7`
leaves the object `7` in the slot, not null. -/
theorem DummyRenderDevice.create_output_not_null :
    ((⟨(), ()⟩ : DummyRenderDevice Unit Unit).CreateBuffer () (none : Option Unit)
        (some (7 : Nat))).2 = some 7 ∧
      ((⟨(), ()⟩ : DummyRenderDevice Unit Unit).CreateBuffer () (none : Option Unit)
        (some (7 : Nat))).2 ≠ none :=
  ⟨rfl, by decide⟩

/-- C2: for every device and every sequence of member calls (all `Create*` calls, `IdleGPU`,
`ReleaseStaleResources`, the format and engine-factory queries, the two accessors),
`GetDeviceInfo` and `GetAdapterInfo` return after the sequence what they returned before it,
the stored `m_DeviceInfo` and `m_AdapterInfo`. -/
theorem DummyRenderDevice.info_immutable (TextureFormatInfo TextureFormatInfoExt : Type)
    [Inhabited TextureFormatInfo] [Inhabited TextureFormatInfoExt]
    (self : DummyRenderDevice RenderDeviceInfo GraphicsAdapterInfo)
    (ops : List (DeviceOp Desc Data Obj)) :
    (self.run TextureFormatInfo TextureFormatInfoExt ops).GetDeviceInfo = self.GetDeviceInfo ∧
      (self.run TextureFormatInfo TextureFormatInfoExt ops).GetAdapterInfo = self.GetAdapterInfo ∧
      (self.run TextureFormatInfo TextureFormatInfoExt ops).GetDeviceInfo = self.m_DeviceInfo ∧
      (self.run TextureFormatInfo TextureFormatInfoExt ops).GetAdapterInfo = self.m_AdapterInfo ∧
      (self.run TextureFormatInfo TextureFormatInfoExt ops).m_DeviceInfo = self.m_DeviceInfo ∧
      (self.run TextureFormatInfo TextureFormatInfoExt ops).m_AdapterInfo = self.m_AdapterInfo := by
  rw [DummyRenderDevice.run_eq]
  exact ⟨rfl, rfl, rfl, rfl, rfl, rfl⟩

/-- C8: the query members of `DummyRenderDevice` return an empty default whatever their
arguments and whatever the device: `GetSparseTextureFormatInfo` the value-initialised
`SparseTextureFormatInfo`, `GetTextureFormatInfo` and `GetTextureFormatInfoExt` the
value-initialised info (so the same value for any two formats), and `GetEngineFactory` null. -/
theorem DummyRenderDevice.queries_return_default
    (SparseTextureFormatInfo TextureFormatInfo TextureFormatInfoExt IEngineFactory : Type)
    [Inhabited SparseTextureFormatInfo] [Inhabited TextureFormatInfo]
    [Inhabited TextureFormatInfoExt]
    (self other : DummyRenderDevice RenderDeviceInfo GraphicsAdapterInfo)
    (TexFormat TexFormat₂ : TEXTURE_FORMAT) (Dimension : RESOURCE_DIMENSION)
    (SampleCount : Nat) :
    (self.GetSparseTextureFormatInfo TexFormat Dimension SampleCount : SparseTextureFormatInfo)
        = default ∧
      ((self.GetTextureFormatInfo TexFormat).2 : TextureFormatInfo) = default ∧
      ((self.GetTextureFormatInfo TexFormat).2 : TextureFormatInfo)
        = (other.GetTextureFormatInfo TexFormat₂).2 ∧
      ((self.GetTextureFormatInfoExt TexFormat).2 : TextureFormatInfoExt) = default ∧
      ((self.GetTextureFormatInfoExt TexFormat).2 : TextureFormatInfoExt)
        = (other.GetTextureFormatInfoExt TexFormat₂).2 ∧
      (self.GetEngineFactory : Option IEngineFactory) = none ∧
      ((self.GetTextureFormatInfo TexFormat : _ × TextureFormatInfo).1 = self) ∧
      ((self.GetTextureFormatInfoExt TexFormat : _ × TextureFormatInfoExt).1 = self) :=
  ⟨rfl, rfl, rfl, rfl, rfl, rfl, rfl, rfl⟩

end DummyRenderDeviceTheorems

/-! ## Theorems: the accessors of `SerializationDeviceImpl` -/

section AccessorTheorems

variable {RenderDeviceInfo GraphicsAdapterInfo IDXCompiler PipelineResourceBinding : Type}

/-- An accessor call returns the device it was called on. -/
theorem SerializationDeviceImpl.call_fst
    (self : SerializationDeviceImpl RenderDeviceInfo GraphicsAdapterInfo IDXCompiler
      PipelineResourceBinding) (a : Accessor) : (self.call a).1 = self := by
  cases a <;> rfl

/-- A sequence of accessor calls returns the device it started from. -/
theorem SerializationDeviceImpl.callAll_eq
    (self : SerializationDeviceImpl RenderDeviceInfo GraphicsAdapterInfo IDXCompiler
      PipelineResourceBinding) (calls : List Accessor) : self.callAll calls = self := by
  induction calls with
  | nil => rfl
  | cons a calls ih =>
      show List.foldl _ (self.call a).1 calls = self
      rw [SerializationDeviceImpl.call_fst]
      exact ih

/-- The packed Vulkan version, without the bit operations. -/
theorem SerializationDeviceImpl.GetVkVersion_eq
    (self : SerializationDeviceImpl RenderDeviceInfo GraphicsAdapterInfo IDXCompiler
      PipelineResourceBinding)
    (hMajor : self.m_VkVersion.Major < 1024) (hMinor : self.m_VkVersion.Minor < 1024) :
    self.GetVkVersion = self.m_VkVersion.Major * 2 ^ 22 + self.m_VkVersion.Minor * 2 ^ 12 := by
  unfold SerializationDeviceImpl.GetVkVersion
  rw [Nat.shiftLeft_eq, Nat.shiftLeft_eq]
  have h₁ : self.m_VkVersion.Major * 2 ^ 22 % 2 ^ 32 = 2 ^ 22 * self.m_VkVersion.Major := by
    omega
  have h₂ : self.m_VkVersion.Minor * 2 ^ 12 % 2 ^ 32 = self.m_VkVersion.Minor * 2 ^ 12 := by
    omega
  have h₃ : self.m_VkVersion.Minor * 2 ^ 12 < 2 ^ 22 := by omega
  rw [h₁, h₂, ← Nat.mul_add_lt_is_or h₃]
  omega

/-- The encoded Direct3D 11 feature level, without the bit operations. -/
theorem SerializationDeviceImpl.GetD3D11FeatureLevel_eq
    (self : SerializationDeviceImpl RenderDeviceInfo GraphicsAdapterInfo IDXCompiler
      PipelineResourceBinding)
    (hMajor : self.m_D3D11FeatureLevel.Major < 2 ^ 20)
    (hMinor : self.m_D3D11FeatureLevel.Minor < 16) :
    self.GetD3D11FeatureLevel =
      self.m_D3D11FeatureLevel.Major * 2 ^ 12 + self.m_D3D11FeatureLevel.Minor * 2 ^ 8 := by
  unfold SerializationDeviceImpl.GetD3D11FeatureLevel
  rw [Nat.shiftLeft_eq, Nat.shiftLeft_eq]
  have h₁ : self.m_D3D11FeatureLevel.Major * 2 ^ 12 % 2 ^ 32
      = 2 ^ 12 * self.m_D3D11FeatureLevel.Major := by
    omega
  have h₂ : self.m_D3D11FeatureLevel.Minor * 2 ^ 8 % 2 ^ 32
      = self.m_D3D11FeatureLevel.Minor * 2 ^ 8 := by
    omega
  have h₃ : self.m_D3D11FeatureLevel.Minor * 2 ^ 8 < 2 ^ 12 := by omega
  rw [h₁, h₂, ← Nat.mul_add_lt_is_or h₃]
  omega

/-- C4: for every `SerializationDeviceImpl` state, `MtlMaxBufferFunctionArgumets()` is 31. -/
theorem SerializationDeviceImpl.MtlMaxBufferFunctionArgumets_eq
    (self : SerializationDeviceImpl RenderDeviceInfo GraphicsAdapterInfo IDXCompiler
      PipelineResourceBinding) : self.MtlMaxBufferFunctionArgumets = 31 :=
  rfl

/-- C6, as the header has it: each family's accessor is a read of the stored handle. For
every device, `GetDxCompilerForDirect3D12` returns `m_pDxCompiler` and
`GetDxCompilerForVulkan` returns `m_pVkDxCompiler` (null when the handle is null: nothing is
constructed); after any sequence of accessor calls both stored handles are what they were, so
every later call returns the handle the first call returned, and using one family's accessor
neither creates nor changes the other family's handle. -/
theorem SerializationDeviceImpl.compiler_accessors_read_only
    (self : SerializationDeviceImpl RenderDeviceInfo GraphicsAdapterInfo IDXCompiler
      PipelineResourceBinding) (calls : List Accessor) :
    self.GetDxCompilerForDirect3D12 = self.m_pDxCompiler ∧
      self.GetDxCompilerForVulkan = self.m_pVkDxCompiler ∧
      (self.callAll calls).m_pDxCompiler = self.m_pDxCompiler ∧
      (self.callAll calls).m_pVkDxCompiler = self.m_pVkDxCompiler ∧
      (self.callAll calls).GetDxCompilerForDirect3D12 = self.GetDxCompilerForDirect3D12 ∧
      (self.callAll calls).GetDxCompilerForVulkan = self.GetDxCompilerForVulkan ∧
      (self.call Accessor.GetDxCompilerForDirect3D12).1.m_pVkDxCompiler = self.m_pVkDxCompiler ∧
      (self.call Accessor.GetDxCompilerForVulkan).1.m_pDxCompiler = self.m_pDxCompiler := by
  rw [SerializationDeviceImpl.callAll_eq]
  exact ⟨rfl, rfl, rfl, rfl, rfl, rfl, rfl, rfl⟩

/-- C6 fails as stated: on the device whose handles hold their default member initialiser
(null), the first use of either accessor returns null and leaves the handle null, so no
handle exists after the first use. -/
theorem SerializationDeviceImpl.compiler_not_constructed_on_first_use :
    (defaultDevice.call Accessor.GetDxCompilerForDirect3D12).1.GetDxCompilerForDirect3D12
        = none ∧
      defaultDevice.GetDxCompilerForDirect3D12 = none ∧
      (defaultDevice.call Accessor.GetDxCompilerForVulkan).1.GetDxCompilerForVulkan = none ∧
      defaultDevice.GetDxCompilerForVulkan = none :=
  ⟨rfl, rfl, rfl, rfl⟩

/-- C7: every configuration accessor leaves the device unchanged and depends only on its own
backing field. For every device, every sequence of accessor calls and every accessor `a`: the
device after the sequence is the device before it, and on any device that agrees with it on
the backing field of `a`, `a` returns the value it returns after the sequence; in particular
it returns after the sequence what the first call returned. -/
theorem SerializationDeviceImpl.accessors_frame
    (d₁ d₂ : SerializationDeviceImpl RenderDeviceInfo GraphicsAdapterInfo IDXCompiler
      PipelineResourceBinding) (calls : List Accessor) (a : Accessor)
    (h : SerializationDeviceImpl.sameBackingField a d₁ d₂) :
    d₁.callAll calls = d₁ ∧ (d₁.call a).1 = d₁ ∧
      ((d₁.callAll calls).call a).2 = (d₂.call a).2 ∧
      ((d₁.callAll calls).call a).2 = (d₁.call a).2 := by
  rw [SerializationDeviceImpl.callAll_eq]
  refine ⟨rfl, SerializationDeviceImpl.call_fst d₁ a, ?_, rfl⟩
  cases a <;>
    simp only [SerializationDeviceImpl.sameBackingField] at h <;>
    simp only [SerializationDeviceImpl.call, SerializationDeviceImpl.GetD3D11FeatureLevel,
      SerializationDeviceImpl.GetDxCompilerForDirect3D12,
      SerializationDeviceImpl.GetD3D12ShaderVersion,
      SerializationDeviceImpl.GetDxCompilerForVulkan, SerializationDeviceImpl.GetVkVersion,
      SerializationDeviceImpl.HasSpirv14, SerializationDeviceImpl.GetMtlTempShaderFolder,
      SerializationDeviceImpl.GetMslPreprocessorCmd,
      SerializationDeviceImpl.GetMtlCompileOptions, SerializationDeviceImpl.GetMtlLinkOptions,
      SerializationDeviceImpl.MtlMaxBufferFunctionArgumets, h]

/-- Witness of C7: two devices that differ in most fields but agree on `m_VkVersion` return the
same `GetVkVersion`, also after other accessor calls. -/
theorem SerializationDeviceImpl.accessors_frame_witness :
    SerializationDeviceImpl.sameBackingField Accessor.GetVkVersion defaultDevice
        configuredDevice ∧
      ((defaultDevice.callAll [Accessor.HasSpirv14, Accessor.GetMtlLinkOptions]).call
          Accessor.GetVkVersion).2 = (configuredDevice.call Accessor.GetVkVersion).2 :=
  ⟨rfl, (SerializationDeviceImpl.accessors_frame defaultDevice configuredDevice
    [Accessor.HasSpirv14, Accessor.GetMtlLinkOptions] Accessor.GetVkVersion rfl).2.2.1⟩

/-- C9: `GetVkVersion` packs the version as `(Major << 22) | (Minor << 12)` on 32 bits, and
for `Major < 1024` and `Minor < 1024` the packing is a round trip: the result `v` is
`Major * 2^22 + Minor * 2^12`, `v >> 22` is `Major`, `(v >> 12) & 0x3FF` is `Minor`, the low
12 bits of `v` are zero, and for the version `{1, 0}` the result is `4194304`. -/
theorem SerializationDeviceImpl.GetVkVersion_roundtrip
    (self : SerializationDeviceImpl RenderDeviceInfo GraphicsAdapterInfo IDXCompiler
      PipelineResourceBinding)
    (hMajor : self.m_VkVersion.Major < 1024) (hMinor : self.m_VkVersion.Minor < 1024) :
    self.GetVkVersion = ((self.m_VkVersion.Major <<< 22) % 2 ^ 32) |||
        ((self.m_VkVersion.Minor <<< 12) % 2 ^ 32) ∧
      self.GetVkVersion = self.m_VkVersion.Major * 2 ^ 22 + self.m_VkVersion.Minor * 2 ^ 12 ∧
      self.GetVkVersion < 2 ^ 32 ∧
      self.GetVkVersion >>> 22 = self.m_VkVersion.Major ∧
      (self.GetVkVersion >>> 12) &&& 0x3FF = self.m_VkVersion.Minor ∧
      self.GetVkVersion &&& 0xFFF = 0 ∧
      (self.m_VkVersion = ⟨1, 0⟩ → self.GetVkVersion = 4194304) := by
  have hv := SerializationDeviceImpl.GetVkVersion_eq self hMajor hMinor
  have hand₁ : (self.GetVkVersion >>> 12) &&& 0x3FF = (self.GetVkVersion >>> 12) % 2 ^ 10 :=
    Nat.and_pow_two_sub_one_eq_mod _ 10
  have hand₂ : self.GetVkVersion &&& 0xFFF = self.GetVkVersion % 2 ^ 12 :=
    Nat.and_pow_two_sub_one_eq_mod _ 12
  refine ⟨rfl, hv, ?_, ?_, ?_, ?_, ?_⟩
  · omega
  · rw [Nat.shiftRight_eq_div_pow]; omega
  · rw [hand₁, Nat.shiftRight_eq_div_pow]; omega
  · rw [hand₂]; omega
  · intro h
    rw [hv, h]
    rfl

/-- Witness of C9: the device with the default Vulkan version `{1, 0}`. -/
theorem SerializationDeviceImpl.GetVkVersion_roundtrip_witness :
    defaultDevice.m_VkVersion.Major < 1024 ∧ defaultDevice.m_VkVersion.Minor < 1024 ∧
      defaultDevice.GetVkVersion = 4194304 ∧ defaultDevice.GetVkVersion >>> 22 = 1 :=
  ⟨by decide, by decide,
    (SerializationDeviceImpl.GetVkVersion_roundtrip defaultDevice (by decide)
      (by decide)).2.2.2.2.2.2 rfl,
    (SerializationDeviceImpl.GetVkVersion_roundtrip defaultDevice (by decide)
      (by decide)).2.2.2.1⟩

/-- C10: `GetD3D11FeatureLevel` encodes the level as `(Major << 12) | (Minor << 8)` on 32
bits, and for `Major < 2^20` and `Minor < 16` the encoding preserves the version order:
`(Major₁, Minor₁)` is lexicographically smaller than `(Major₂, Minor₂)` if and only if the
first code is smaller than the second, so equal codes come from equal levels; for the level
`{11, 0}` the code is `0xB000`. -/
theorem SerializationDeviceImpl.GetD3D11FeatureLevel_order
    (d₁ d₂ : SerializationDeviceImpl RenderDeviceInfo GraphicsAdapterInfo IDXCompiler
      PipelineResourceBinding)
    (hMajor₁ : d₁.m_D3D11FeatureLevel.Major < 2 ^ 20)
    (hMinor₁ : d₁.m_D3D11FeatureLevel.Minor < 16)
    (hMajor₂ : d₂.m_D3D11FeatureLevel.Major < 2 ^ 20)
    (hMinor₂ : d₂.m_D3D11FeatureLevel.Minor < 16) :
    d₁.GetD3D11FeatureLevel = ((d₁.m_D3D11FeatureLevel.Major <<< 12) % 2 ^ 32) |||
        ((d₁.m_D3D11FeatureLevel.Minor <<< 8) % 2 ^ 32) ∧
      ((d₁.m_D3D11FeatureLevel.Major < d₂.m_D3D11FeatureLevel.Major ∨
          (d₁.m_D3D11FeatureLevel.Major = d₂.m_D3D11FeatureLevel.Major ∧
            d₁.m_D3D11FeatureLevel.Minor < d₂.m_D3D11FeatureLevel.Minor)) ↔
        d₁.GetD3D11FeatureLevel < d₂.GetD3D11FeatureLevel) ∧
      (d₁.GetD3D11FeatureLevel = d₂.GetD3D11FeatureLevel ↔
        d₁.m_D3D11FeatureLevel = d₂.m_D3D11FeatureLevel) ∧
      (d₁.m_D3D11FeatureLevel = ⟨11, 0⟩ → d₁.GetD3D11FeatureLevel = 0xB000) := by
  have h₁ := SerializationDeviceImpl.GetD3D11FeatureLevel_eq d₁ hMajor₁ hMinor₁
  have h₂ := SerializationDeviceImpl.GetD3D11FeatureLevel_eq d₂ hMajor₂ hMinor₂
  refine ⟨rfl, ?_, ?_, ?_⟩
  · rw [h₁, h₂]; omega
  · rw [h₁, h₂]
    constructor
    · intro h
      have hM : d₁.m_D3D11FeatureLevel.Major = d₂.m_D3D11FeatureLevel.Major := by omega
      have hm : d₁.m_D3D11FeatureLevel.Minor = d₂.m_D3D11FeatureLevel.Minor := by omega
      cases hd₁ : d₁.m_D3D11FeatureLevel
      cases hd₂ : d₂.m_D3D11FeatureLevel
      simp_all
    · intro h
      rw [h]
  · intro h
    rw [h₁, h]
    rfl

/-- Witness of C10: the levels `{11, 0}` (the default) and `{11, 1}`. -/
theorem SerializationDeviceImpl.GetD3D11FeatureLevel_order_witness :
    defaultDevice.GetD3D11FeatureLevel = 0xB000 ∧
      defaultDevice.GetD3D11FeatureLevel < configuredDevice.GetD3D11FeatureLevel :=
  ⟨(SerializationDeviceImpl.GetD3D11FeatureLevel_order defaultDevice defaultDevice
      (by decide) (by decide) (by decide) (by decide)).2.2.2 rfl,
    (SerializationDeviceImpl.GetD3D11FeatureLevel_order defaultDevice configuredDevice
      (by decide) (by decide) (by decide) (by decide)).2.1.mp (Or.inr ⟨rfl, by decide⟩)⟩

end AccessorTheorems

/-! ## Theorems: the binding table -/

section BindingTheorems

/-- In a list with distinct names, the resources that carry the name of `r` are `r` alone. -/
theorem filter_name_of_nodup (all : List PipelineResourceDesc)
    (hNames : (all.map fun r => r.Name).Nodup) (r : PipelineResourceDesc) (hr : r ∈ all) :
    (all.filter fun x => x.Name == r.Name) = [r] := by
  induction all with
  | nil => cases hr
  | cons x xs ih =>
      rw [List.map_cons, List.nodup_cons] at hNames
      obtain ⟨hx, hxs⟩ := hNames
      rcases List.mem_cons.1 hr with rfl | hmem
      · have hnil : (xs.filter fun y => y.Name == r.Name) = [] := by
          rw [List.filter_eq_nil_iff]
          intro y hy hyr
          exact hx (List.mem_map.2 ⟨y, hy, by simpa using hyr⟩)
        simp [List.filter_cons, hnil]
      · have hne : ¬ x.Name = r.Name := by
          intro h
          exact hx (List.mem_map.2 ⟨r, hmem, h.symm⟩)
        simp [List.filter_cons, hne, ih hxs hmem]

/-- In a list with distinct names, the stage mask of a row is the mask of its resource. -/
theorem stageMaskOf_of_nodup (all : List PipelineResourceDesc)
    (hNames : (all.map fun r => r.Name).Nodup) (r : PipelineResourceDesc) (hr : r ∈ all) :
    stageMaskOf all r.Name = r.ShaderStages := by
  unfold stageMaskOf
  rw [filter_name_of_nodup all hNames r hr]
  simp

/-- The running total after one more row. -/
theorem bufferCount_append (table : List PipelineResourceBinding) (b : PipelineResourceBinding)
    (stages : Nat) :
    bufferCount (table ++ [b]) stages = bufferCount table stages +
      (if b.ResourceType = ResourceType.Buffer ∧ b.ShaderStages = stages then 1 else 0) := by
  unfold bufferCount
  rw [List.filter_append, List.length_append]
  by_cases h : b.ResourceType = ResourceType.Buffer ∧ b.ShaderStages = stages
  · simp [List.filter_cons, h]
  · rw [if_neg h]
    have : ¬ (b.ResourceType == ResourceType.Buffer && b.ShaderStages == stages) = true := by
      simpa using h
    simp [List.filter_cons, this]

/-- The buffer-type resources of a stage combination, one resource at a time. -/
theorem buffersIn_cons (r : PipelineResourceDesc) (rest : List PipelineResourceDesc)
    (stages : Nat) :
    buffersIn (r :: rest) stages =
      if r.ResourceType = ResourceType.Buffer ∧ r.ShaderStages = stages then
        r :: buffersIn rest stages
      else buffersIn rest stages := by
  unfold buffersIn
  by_cases h : r.ResourceType = ResourceType.Buffer ∧ r.ShaderStages = stages
  · simp [List.filter_cons, h]
  · rw [if_neg h]
    have : ¬ (r.ResourceType == ResourceType.Buffer && r.ShaderStages == stages) = true := by
      simpa using h
    simp [List.filter_cons, this]

/-- A stage combination that has a buffer-type resource in the list is that of a member. -/
theorem exists_of_buffersIn_pos (resources : List PipelineResourceDesc) (stages : Nat)
    (h : 0 < (buffersIn resources stages).length) :
    ∃ r ∈ resources, r.ResourceType = ResourceType.Buffer ∧ r.ShaderStages = stages := by
  obtain ⟨r, hr⟩ := List.exists_mem_of_length_pos h
  unfold buffersIn at hr
  rw [List.mem_filter] at hr
  exact ⟨r, hr.1, by simpa using hr.2⟩

/-- The Metal rule succeeds when, in every stage combination, the buffer-type resources still
to process fit under the ceiling together with the rows already counted. -/
theorem metalBindings_ok (MaxBufferArgs : Nat) (all : List PipelineResourceDesc)
    (rest : List PipelineResourceDesc) :
    ∀ table : List PipelineResourceBinding,
      (∀ r ∈ rest, stageMaskOf all r.Name = r.ShaderStages) →
      (∀ s, bufferCount table s + (buffersIn rest s).length ≤ MaxBufferArgs) →
      ∃ rows, metalBindings MaxBufferArgs all table rest = .ok rows ∧
        rows.length = table.length + rest.length ∧
        rows.map (fun b => b.Name) = table.map (fun b => b.Name) ++ rest.map (fun r => r.Name) := by
  induction rest with
  | nil =>
      intro table _ _
      exact ⟨table, rfl, by simp, by simp⟩
  | cons r rest ih =>
      intro table hmask hfit
      have hmr := hmask r (List.mem_cons_self r rest)
      have hmask' : ∀ x ∈ rest, stageMaskOf all x.Name = x.ShaderStages :=
        fun x hx => hmask x (List.mem_cons_of_mem r hx)
      have hcond : ¬ (r.ResourceType = ResourceType.Buffer ∧
          MaxBufferArgs < bufferCount table (stageMaskOf all r.Name) + 1) := by
        rintro ⟨hb, hlt⟩
        have h := hfit r.ShaderStages
        rw [buffersIn_cons, if_pos ⟨hb, rfl⟩, List.length_cons] at h
        rw [hmr] at hlt
        omega
      have hfit' : ∀ s, bufferCount (table ++ [⟨r.Name, r.ResourceType, stageMaskOf all r.Name,
          categoryCount table r.ResourceType⟩]) s + (buffersIn rest s).length
          ≤ MaxBufferArgs := by
        intro s
        have h := hfit s
        rw [buffersIn_cons] at h
        rw [bufferCount_append, hmr]
        by_cases hs : r.ResourceType = ResourceType.Buffer ∧ r.ShaderStages = s
        · rw [if_pos hs, List.length_cons] at h
          rw [if_pos hs]
          omega
        · rw [if_neg hs] at h
          rw [if_neg hs]
          omega
      rw [metalBindings, if_neg hcond]
      obtain ⟨rows, hrows, hl, hn⟩ := ih _ hmask' hfit'
      refine ⟨rows, hrows, ?_, ?_⟩
      · rw [hl]; simp; omega
      · rw [hn]; simp

/-- The Metal rule fails when the buffer-type resources of one stage combination do not fit
under the ceiling while those of every other combination do: the error names the first
resource of that combination past the ceiling. -/
theorem metalBindings_error (MaxBufferArgs : Nat) (all : List PipelineResourceDesc) (stages : Nat)
    (rest : List PipelineResourceDesc) :
    ∀ table : List PipelineResourceBinding,
      (∀ r ∈ rest, stageMaskOf all r.Name = r.ShaderStages) →
      (∀ s, s ≠ stages → bufferCount table s + (buffersIn rest s).length ≤ MaxBufferArgs) →
      bufferCount table stages ≤ MaxBufferArgs →
      MaxBufferArgs < bufferCount table stages + (buffersIn rest stages).length →
      ∃ r, (buffersIn rest stages)[MaxBufferArgs - bufferCount table stages]? = some r ∧
        metalBindings MaxBufferArgs all table rest = .error (.CapacityExceeded r.Name) := by
  induction rest with
  | nil =>
      intro table _ _ hle hlt
      simp [buffersIn] at hlt
      omega
  | cons r rest ih =>
      intro table hmask hother hle hlt
      have hmr := hmask r (List.mem_cons_self r rest)
      have hmask' : ∀ x ∈ rest, stageMaskOf all x.Name = x.ShaderStages :=
        fun x hx => hmask x (List.mem_cons_of_mem r hx)
      have hother' : ∀ s, s ≠ stages →
          bufferCount (table ++ [⟨r.Name, r.ResourceType, stageMaskOf all r.Name,
            categoryCount table r.ResourceType⟩]) s + (buffersIn rest s).length
          ≤ MaxBufferArgs := by
        intro s hne
        have h := hother s hne
        rw [buffersIn_cons] at h
        rw [bufferCount_append, hmr]
        by_cases hs : r.ResourceType = ResourceType.Buffer ∧ r.ShaderStages = s
        · rw [if_pos hs, List.length_cons] at h
          rw [if_pos hs]
          omega
        · rw [if_neg hs] at h
          rw [if_neg hs]
          omega
      rw [buffersIn_cons] at hlt ⊢
      by_cases hb : r.ResourceType = ResourceType.Buffer ∧ r.ShaderStages = stages
      · rw [if_pos hb] at hlt ⊢
        rw [List.length_cons] at hlt
        by_cases hk : bufferCount table stages = MaxBufferArgs
        · have hcond : r.ResourceType = ResourceType.Buffer ∧
              MaxBufferArgs < bufferCount table (stageMaskOf all r.Name) + 1 := by
            rw [hmr, hb.2]
            exact ⟨hb.1, by omega⟩
          refine ⟨r, ?_, ?_⟩
          · rw [hk, Nat.sub_self]
            exact List.getElem?_cons_zero
          · rw [metalBindings, if_pos hcond]
        · have hcond : ¬ (r.ResourceType = ResourceType.Buffer ∧
              MaxBufferArgs < bufferCount table (stageMaskOf all r.Name) + 1) := by
            rw [hmr, hb.2]
            omega
          have hcount : bufferCount (table ++ [⟨r.Name, r.ResourceType, stageMaskOf all r.Name,
              categoryCount table r.ResourceType⟩]) stages = bufferCount table stages + 1 := by
            rw [bufferCount_append, hmr, if_pos hb]
          obtain ⟨x, hx, herr⟩ := ih _ hmask' hother' (by rw [hcount]; omega)
            (by rw [hcount]; omega)
          refine ⟨x, ?_, ?_⟩
          · rw [hcount] at hx
            have hidx : MaxBufferArgs - bufferCount table stages
                = (MaxBufferArgs - (bufferCount table stages + 1)) + 1 := by omega
            rw [hidx, List.getElem?_cons_succ]
            exact hx
          · rw [metalBindings, if_neg hcond]
            exact herr
      · rw [if_neg hb] at hlt ⊢
        have hcond : ¬ (r.ResourceType = ResourceType.Buffer ∧
            MaxBufferArgs < bufferCount table (stageMaskOf all r.Name) + 1) := by
          rintro ⟨hbuf, hover⟩
          have hne : r.ShaderStages ≠ stages := fun h => hb ⟨hbuf, h⟩
          have h := hother r.ShaderStages hne
          rw [buffersIn_cons, if_pos ⟨hbuf, rfl⟩, List.length_cons] at h
          rw [hmr] at hover
          omega
        have hcount : bufferCount (table ++ [⟨r.Name, r.ResourceType, stageMaskOf all r.Name,
            categoryCount table r.ResourceType⟩]) stages = bufferCount table stages := by
          rw [bufferCount_append, hmr, if_neg hb]
          rfl
        obtain ⟨x, hx, herr⟩ := ih _ hmask' hother' (by rw [hcount]; omega)
          (by rw [hcount]; omega)
        refine ⟨x, ?_, ?_⟩
        · rw [hcount] at hx
          exact hx
        · rw [metalBindings, if_neg hcond]
          exact herr

variable {RenderDeviceInfo GraphicsAdapterInfo IDXCompiler : Type}

/-- Creating a Metal signature from a valid description returns what the Metal rule returns
on its resources. -/
theorem SerializationDeviceImpl.create_metal (ValidDeviceFlags : List Backend)
    (self : SerializationDeviceImpl RenderDeviceInfo GraphicsAdapterInfo IDXCompiler
      PipelineResourceBinding) (Desc : PipelineResourceSignatureDesc)
    (hMetal : Backend.Metal ∈ ValidDeviceFlags)
    (hNames : (Desc.Resources.map fun r => r.Name).Nodup) :
    self.CreatePipelineResourceSignature ValidDeviceFlags Desc [Backend.Metal] =
      match metalBindings 31 Desc.Resources [] Desc.Resources with
      | .error e => .error e
      | .ok _ => .ok ⟨Desc, [Backend.Metal]⟩ := by
  have hflags : ¬ ([Backend.Metal] = [] ∨ ¬ [Backend.Metal] ⊆ ValidDeviceFlags) := by
    simp [hMetal]
  have hnames : ¬ ¬ (Desc.Resources.map fun r => r.Name).Nodup := fun h => h hNames
  have hmem : Backend.Metal ∈ [Backend.Metal] := List.mem_singleton_self _
  unfold SerializationDeviceImpl.CreatePipelineResourceSignature
  rw [if_neg hflags, if_neg hnames, if_pos hmem]
  rfl

/-- Computing the Metal bindings of one signature returns what the Metal rule returns on its
resources, stored in the device. -/
theorem SerializationDeviceImpl.getBindings_metal
    (self : SerializationDeviceImpl RenderDeviceInfo GraphicsAdapterInfo IDXCompiler
      PipelineResourceBinding) (sig : SerializableResourceSignature) :
    self.GetPipelineResourceBindings ⟨[sig], Backend.Metal⟩ =
      match metalBindings 31 sig.Desc.Resources [] sig.Desc.Resources with
      | .error e => .error e
      | .ok rows => .ok ({ self with m_ResourceBindings := rows }, rows.length, rows) := by
  have hres : (⟨[sig], Backend.Metal⟩ : PipelineResourceBindingAttribs).resources
      = sig.Desc.Resources := by
    simp [PipelineResourceBindingAttribs.resources]
  unfold SerializationDeviceImpl.GetPipelineResourceBindings
    SerializationDeviceImpl.GetMetalPipelineResourceBindings
  rw [hres]
  rfl

/-- C3: for Metal, with `MaxBufferArgs = MtlMaxBufferFunctionArgumets()`, take a signature
with distinct names (Metal compiled in) and a stage combination `stages`, every other stage
combination holding at most 31 buffer-type resources. If `stages` holds at most 31 buffer-type
resources, so with exactly 31, creating the signature and computing its bindings succeeds, and
the table has one row per resource. If `stages` holds 32 (or more), the creation, the two
calls together and the computation of the bindings each fail with `CapacityExceeded` naming
the 32nd buffer-type resource of `stages`, and return no table. -/
theorem SerializationDeviceImpl.metal_buffer_ceiling (ValidDeviceFlags : List Backend)
    (self : SerializationDeviceImpl RenderDeviceInfo GraphicsAdapterInfo IDXCompiler
      PipelineResourceBinding) (Desc : PipelineResourceSignatureDesc) (stages : Nat)
    (hMetal : Backend.Metal ∈ ValidDeviceFlags)
    (hNames : (Desc.Resources.map fun r => r.Name).Nodup)
    (hOther : ∀ r ∈ Desc.Resources, r.ResourceType = ResourceType.Buffer →
      r.ShaderStages ≠ stages → (buffersIn Desc.Resources r.ShaderStages).length ≤ 31) :
    ((buffersIn Desc.Resources stages).length ≤ 31 →
      ∃ rows,
        self.CreatePipelineResourceSignature ValidDeviceFlags Desc [Backend.Metal]
          = .ok ⟨Desc, [Backend.Metal]⟩ ∧
        self.createAndGetMetalBindings ValidDeviceFlags Desc
          = .ok ({ self with m_ResourceBindings := rows }, Desc.Resources.length, rows) ∧
        rows.length = Desc.Resources.length ∧
        rows.map (fun b => b.Name) = Desc.Resources.map (fun r => r.Name)) ∧
    (32 ≤ (buffersIn Desc.Resources stages).length →
      ∃ r,
        (buffersIn Desc.Resources stages)[31]? = some r ∧
        self.CreatePipelineResourceSignature ValidDeviceFlags Desc [Backend.Metal]
          = .error (.CapacityExceeded r.Name) ∧
        self.createAndGetMetalBindings ValidDeviceFlags Desc
          = .error (.CapacityExceeded r.Name) ∧
        self.GetPipelineResourceBindings ⟨[⟨Desc, [Backend.Metal]⟩], Backend.Metal⟩
          = .error (.CapacityExceeded r.Name)) := by
  have hmask : ∀ r ∈ Desc.Resources, stageMaskOf Desc.Resources r.Name = r.ShaderStages :=
    fun r hr => stageMaskOf_of_nodup Desc.Resources hNames r hr
  have hzero : ∀ s, bufferCount [] s = 0 := fun _ => rfl
  have hother : ∀ s, s ≠ stages →
      bufferCount [] s + (buffersIn Desc.Resources s).length ≤ 31 := by
    intro s hs
    rw [hzero, Nat.zero_add]
    by_cases hpos : 0 < (buffersIn Desc.Resources s).length
    · obtain ⟨r, hr, hb, hst⟩ := exists_of_buffersIn_pos Desc.Resources s hpos
      have h := hOther r hr hb (by rw [hst]; exact hs)
      rw [hst] at h
      exact h
    · omega
  have hcreate := SerializationDeviceImpl.create_metal ValidDeviceFlags self Desc hMetal hNames
  have hget := SerializationDeviceImpl.getBindings_metal self ⟨Desc, [Backend.Metal]⟩
  constructor
  · intro hfit
    have hall : ∀ s, bufferCount [] s + (buffersIn Desc.Resources s).length ≤ 31 := by
      intro s
      by_cases hs : s = stages
      · rw [hs, hzero, Nat.zero_add]
        exact hfit
      · exact hother s hs
    obtain ⟨rows, hrows, hlen, hnames⟩ :=
      metalBindings_ok 31 Desc.Resources Desc.Resources [] hmask hall
    rw [hrows] at hcreate hget
    have hlen' : rows.length = Desc.Resources.length := by simpa using hlen
    refine ⟨rows, hcreate, ?_, hlen', by simpa using hnames⟩
    unfold SerializationDeviceImpl.createAndGetMetalBindings
    rw [hcreate]
    show self.GetPipelineResourceBindings ⟨[⟨Desc, [Backend.Metal]⟩], Backend.Metal⟩ = _
    rw [hget]
    show Except.ok (_, rows.length, rows) = _
    rw [hlen']
  · intro hover
    obtain ⟨r, hr, herr⟩ :=
      metalBindings_error 31 Desc.Resources stages Desc.Resources [] hmask hother
        (by rw [hzero]; omega) (by rw [hzero]; omega)
    rw [hzero] at hr
    rw [herr] at hcreate hget
    refine ⟨r, hr, hcreate, ?_, hget⟩
    unfold SerializationDeviceImpl.createAndGetMetalBindings
    rw [hcreate]

/-- Witness of C3: the sample signatures with 31 and with 32 buffer-type resources of stage
combination `3` (after a texture, a sampler and two buffers of stage combination `1`): the
first yields a table of 35 rows, the second fails with `CapacityExceeded` naming its 32nd
buffer of stage combination `3`. -/
theorem SerializationDeviceImpl.metal_buffer_ceiling_witness :
    (∃ rows, defaultDevice.createAndGetMetalBindings [Backend.Metal] (sampleSignature 31)
        = .ok ({ defaultDevice with m_ResourceBindings := rows }, 35, rows)) ∧
      defaultDevice.createAndGetMetalBindings [Backend.Metal] (sampleSignature 32)
        = .error (.CapacityExceeded (sampleName 31)) := by
  constructor
  · obtain ⟨rows, _, h, _⟩ :=
      (SerializationDeviceImpl.metal_buffer_ceiling [Backend.Metal] defaultDevice
        (sampleSignature 31) 3 (by decide) (by decide) (by decide)).1 (by decide)
    exact ⟨rows, h⟩
  · obtain ⟨r, hr, _, h, _⟩ :=
      (SerializationDeviceImpl.metal_buffer_ceiling [Backend.Metal] defaultDevice
        (sampleSignature 32) 3 (by decide) (by decide) (by decide)).2 (by decide)
    have hr' : r = ⟨sampleName 31, ResourceType.Buffer, 3, 1⟩ := by
      have : (buffersIn (sampleSignature 32).Resources 3)[31]?
          = some ⟨sampleName 31, ResourceType.Buffer, 3, 1⟩ := by decide
      rw [this] at hr
      exact (Option.some.inj hr).symm
    rw [h, hr']

end BindingTheorems

/-! ## Theorems: the test kernel `MSL::ThreadgroupMemory_CS` -/

section ThreadgroupMemoryTheorems

open MSL MSL.ThreadgroupMemory_CS

/-- A column below the width and a row below the height give a cell of the group. -/
theorem MSL.cell_lt (a b W H : Nat) (ha : a < W) (hb : b < H) : a + b * W < W * H := by
  have h : (b + 1) * W ≤ H * W := Nat.mul_le_mul_right W hb
  rw [Nat.add_mul, Nat.one_mul, Nat.mul_comm H W] at h
  omega

/-- A cell index below `2 ^ 32` is computed without wrap-around. -/
theorem MSL.uadd_umul_eq (a b W H : Nat) (ha : a < W) (hb : b < H)
    (hprod : W * H < 2 ^ 32) : uadd a (umul b W) = a + b * W := by
  have hcell := MSL.cell_lt a b W H ha hb
  have hmul : b * W % 2 ^ 32 = b * W := Nat.mod_eq_of_lt (by omega)
  unfold uadd umul
  rw [hmul]
  exact Nat.mod_eq_of_lt (by omega)

/-- A read of pass 2 returns the cell of the two reduced components. -/
theorem MSL.ThreadgroupMemory_CS.pass2Index_eq (ox oy : Offset) (localId localSize : uint2)
    (hx : 0 < localSize.x) (hy : 0 < localSize.y)
    (hprod : localSize.x * localSize.y < 2 ^ 32) :
    pass2Index ox oy localId localSize =
      some (ox.apply localId.x % localSize.x +
        oy.apply localId.y % localSize.y * localSize.x) := by
  have hx0 : ¬ localSize.x = 0 := by omega
  have hy0 : ¬ localSize.y = 0 := by omega
  unfold pass2Index umod
  rw [if_neg hx0, if_neg hy0]
  show some (uadd _ (umul _ _)) = _
  rw [MSL.uadd_umul_eq _ _ localSize.x localSize.y (Nat.mod_lt _ hx) (Nat.mod_lt _ hy) hprod]

/-- C11: in the kernel `ThreadgroupMemory_CS` every access to `groupPixels` is in bounds. For
all `localSize.x > 0` and `localSize.y > 0` whose product does not overflow 32 bits and all
`localId` with `localId.x < localSize.x` and `localId.y < localSize.y`, the index written in
pass 1 and each of the five indices read in pass 2, computed with wrap-around modulo `2 ^ 32`
(also `localId.x - 1` and `localId.y - 1` at `0`), is below `localSize.x * localSize.y`; each
read has a result, the cell of the two reduced components. -/
theorem MSL.ThreadgroupMemory_CS.groupPixels_in_bounds (localId localSize : uint2)
    (hx : 0 < localSize.x) (hy : 0 < localSize.y)
    (hprod : localSize.x * localSize.y < 2 ^ 32)
    (hidx : localId.x < localSize.x) (hidy : localId.y < localSize.y) :
    pass1Index localId localSize < localSize.x * localSize.y ∧
      pass1Index localId localSize = localId.x + localId.y * localSize.x ∧
      ∀ o ∈ pass2Reads,
        pass2Index o.1 o.2 localId localSize =
            some (o.1.apply localId.x % localSize.x +
              o.2.apply localId.y % localSize.y * localSize.x) ∧
          o.1.apply localId.x % localSize.x +
              o.2.apply localId.y % localSize.y * localSize.x
            < localSize.x * localSize.y := by
  have h1 : pass1Index localId localSize = localId.x + localId.y * localSize.x :=
    MSL.uadd_umul_eq _ _ localSize.x localSize.y hidx hidy hprod
  refine ⟨?_, h1, ?_⟩
  · rw [h1]
    exact MSL.cell_lt _ _ _ _ hidx hidy
  · intro o _
    exact ⟨MSL.ThreadgroupMemory_CS.pass2Index_eq o.1 o.2 localId localSize hx hy hprod,
      MSL.cell_lt _ _ _ _ (Nat.mod_lt _ hx) (Nat.mod_lt _ hy)⟩

/-- Witness of C11: the thread `(0, 0)` of a `3 × 5` group. Its pass-1 index is `0`, and its
read at `(-1, -1)`, where both components wrap around to `2 ^ 32 - 1`, is the cell `0`,
below `15`. -/
theorem MSL.ThreadgroupMemory_CS.groupPixels_in_bounds_witness :
    pass1Index ⟨0, 0⟩ ⟨3, 5⟩ < 3 * 5 ∧
      pass2Index Offset.minus Offset.minus ⟨0, 0⟩ ⟨3, 5⟩ = some 0 ∧
      Offset.minus.apply 0 = 4294967295 :=
  ⟨(MSL.ThreadgroupMemory_CS.groupPixels_in_bounds ⟨0, 0⟩ ⟨3, 5⟩ (by decide) (by decide)
      (by decide) (by decide) (by decide)).1,
    ((MSL.ThreadgroupMemory_CS.groupPixels_in_bounds ⟨0, 0⟩ ⟨3, 5⟩ (by decide) (by decide)
      (by decide) (by decide) (by decide)).2.2 (Offset.minus, Offset.minus)
        (by decide)).1,
    by decide⟩

end ThreadgroupMemoryTheorems

end Diligent
